import Mathlib

/-!
Shallow embedding of the chaldeploy instance manager (`instance_mgmt.go`)
and of its HTTP-facing collaborators where the verified claims need them.

Modelling conventions:
- Go strings are Lean `String`s; `strings.ToLower`, `strings.ReplaceAll(s, "-", "")`
  and `strings.Split` are embedded as explicit functions over `String.data`.
- The kubernetes cluster is modelled as the list of namespace names that
  currently exist; create/get/delete cluster calls may fail, and those
  failure outcomes are supplied by oracle records (`CreateOracle`,
  `DestroyOracle`) so that theorems quantify over every cluster behavior.
- Each operation returns, besides its result and the updated world, the
  list of observable events it performed (lock acquisition/release, cluster
  calls, writes to the record's `State` field), so that claims about "no
  cluster call is issued" or about state transitions are statable.
- `error` returns are modelled as `Option`/`Bool` results: `CreateDeployment`
  returns `none` exactly when the Go function returns a non-nil error, and
  `DestroyDeployment` returns `false` exactly when it returns a non-nil error.
-/

set_option autoImplicit false

namespace Chaldeploy

/-- Lifecycle state of a deployment instance (`InstanceState` in the source). -/
inductive InstanceState where
  | Running
  | Destroying
  | Destroyed
deriving DecidableEq, Repr

/-- `DeploymentInstance`: a single deployment of a challenge for a team.
The per-record mutex is modelled through lock events, not as data. -/
structure DeploymentInstance where
  AppName : String
  Namespace : String
  State : InstanceState
  Cxn : String
deriving DecidableEq, Repr

/-- The static configuration fields of the program that the instance
manager reads (`config.ChallengeName`, `config.ChallengeImage`,
`config.ChallengePort`, `config.K8sConfigPath`). -/
structure Config where
  ChallengeName : String
  ChallengeImage : String
  ChallengePort : Nat
  K8sConfigPath : String
deriving DecidableEq, Repr

/-- Modelled from the spec: `HashString` is defined outside the provided
source files; the spec fixes only that it is a *stable hash* of the
challenge identity ("deterministic, derived from a stable hash of the
challenge identity plus the team identifier"). It is modelled as a
deterministic polynomial string hash rendered in decimal; the claims use
only its determinism. -/
def HashString (s : String) : String :=
  Nat.repr (s.data.foldl (fun h c => (h * 31 + c.toNat) % 65521) 5381)

/-- Embedding of Go `strings.ReplaceAll(s, "-", "")`. -/
def removeDashes (s : String) : String :=
  ⟨s.data.filter (fun c => decide (c ≠ '-'))⟩

/-- Embedding of Go `strings.ToLower` (character-wise lowering). -/
def goToLower (s : String) : String :=
  ⟨s.data.map Char.toLower⟩

/-- The unique resource name computed at the top of `CreateDeployment`:
`strings.ToLower(fmt.Sprintf("chaldeploy-%s-%s", HashString(config.ChallengeName),
strings.ReplaceAll(teamId, "-", "")))`. -/
def uniqName (challengeName teamId : String) : String :=
  goToLower ("chaldeploy-" ++ HashString challengeName ++ "-" ++ removeDashes teamId)

/-- Observable events of an instance-manager operation: per-record lock
traffic, cluster calls, and writes to a record's `State` field. -/
inductive Event where
  | lock
  | unlock
  | createNs (name : String)
  | createDep (ns name : String)
  | getNs (name : String)
  | deleteNs (name : String)
  | setState (old new : InstanceState)
deriving DecidableEq, Repr

/-- The mutable world: the instance registry (team id → record, the
`generic_map.MapOf` of `InstanceManager`) and the set of namespaces that
exist on the cluster. -/
structure World where
  instances : List (String × DeploymentInstance)
  namespaces : List String
deriving DecidableEq, Repr

/-- Registry lookup (`im.Instances.Load`). -/
def lookupInst : List (String × DeploymentInstance) → String → Option DeploymentInstance
  | [], _ => none
  | (k, v) :: rest, key => if k = key then some v else lookupInst rest key

/-- Registry store: update the binding for a key, or append it if absent. -/
def storeInst : List (String × DeploymentInstance) → String → DeploymentInstance →
    List (String × DeploymentInstance)
  | [], key, v => [(key, v)]
  | (k, v') :: rest, key, v =>
    if k = key then (key, v) :: rest else (k, v') :: storeInst rest key v

/-- Registry `LoadOrStore`: return the existing record, or store and return
the given fresh one. -/
def loadOrStore (l : List (String × DeploymentInstance)) (key : String)
    (v : DeploymentInstance) : DeploymentInstance × List (String × DeploymentInstance) :=
  match lookupInst l key with
  | some v' => (v', l)
  | none => (v, storeInst l key v)

/-- Outcomes of the two cluster create calls of `CreateDeployment`
(namespace create, deployment create); `false` means the call fails. -/
structure CreateOracle where
  nsOk : Bool
  depOk : Bool
deriving DecidableEq, Repr

/-- Outcomes of the cluster calls of `DestroyDeployment`: `getOk` means the
namespace Get call returns without error, `deleteOk` means the namespace
Delete call succeeds. -/
structure DestroyOracle where
  getOk : Bool
  deleteOk : Bool
deriving DecidableEq, Repr

/-- Embedding of `InstanceManager.CreateDeployment`. Returns
(connection string or `none` on error, updated world, event trace). -/
def CreateDeployment (cfg : Config) (o : CreateOracle) (w : World) (teamId : String) :
    Option String × World × List Event :=
  let name := uniqName cfg.ChallengeName teamId
  let di0 : DeploymentInstance :=
    { AppName := name, Namespace := name, State := .Destroyed, Cxn := "" }
  let p := loadOrStore w.instances teamId di0
  let di := p.1
  let w1 : World := { w with instances := p.2 }
  if di.State = .Destroyed then
    if o.nsOk then
      let w2 : World := { w1 with namespaces := w1.namespaces ++ [name] }
      if o.depOk then
        let di' : DeploymentInstance := { di with State := .Running, Cxn := "1.2.3.4:9999" }
        let w3 : World := { w2 with instances := storeInst w2.instances teamId di' }
        (some "1.2.3.4:9999", w3,
          [.lock, .createNs name, .createDep di.Namespace di.AppName,
           .setState .Destroyed .Running, .unlock])
      else
        (none, w2, [.lock, .createNs name, .createDep di.Namespace di.AppName, .unlock])
    else
      (none, w1, [.lock, .createNs name, .unlock])
  else
    (some di.Cxn, w1, [.lock, .unlock])

/-- Embedding of `InstanceManager.DestroyDeployment`. Returns
(`true` iff the Go function returns a nil error, updated world, event trace). -/
def DestroyDeployment (o : DestroyOracle) (w : World) (teamId : String) :
    Bool × World × List Event :=
  match lookupInst w.instances teamId with
  | none => (false, w, [])
  | some di =>
    if di.State = .Destroying then
      (true, w, [])
    else
      let di1 : DeploymentInstance := { di with State := .Destroying }
      let w1 : World := { w with instances := storeInst w.instances teamId di1 }
      let tr1 : List Event :=
        [.lock, .setState di.State .Destroying, .unlock, .getNs di.AppName]
      if o.getOk = true ∧ di.AppName ∈ w1.namespaces then
        if o.deleteOk then
          let di2 : DeploymentInstance := { di1 with State := .Destroyed }
          let w2 : World :=
            { instances := storeInst w1.instances teamId di2,
              namespaces := w1.namespaces.filter (fun x => decide (x ≠ di.Namespace)) }
          (true, w2,
            tr1 ++ [.lock, .deleteNs di.Namespace, .setState .Destroying .Destroyed, .unlock])
        else
          (false, w1, tr1 ++ [.lock, .deleteNs di.Namespace, .unlock])
      else
        (true, w1, tr1)

/-- `getSelector`: label selector shared by the deployment objects. -/
def getSelector (appName teamId : String) : List (String × String) :=
  [("app", appName), ("chaldeploy.captaingee.ch/team-id", teamId)]

/-- Namespace descriptor, as built by `getNamespace`. -/
structure NamespaceDesc where
  name : String
  labels : List (String × String)
deriving DecidableEq, Repr

/-- Embedding of `getNamespace`. -/
def getNamespace (cfg : Config) (name teamId : String) : NamespaceDesc :=
  { name := name,
    labels :=
      [("chaldeploy.captaingee.ch/chal", HashString cfg.ChallengeName),
       ("chaldeploy.captaingee.ch/team-id", teamId),
       ("chaldeploy.captaingee.ch/managed-by", "yes")] }

/-- The single container of the deployment's pod template. -/
structure ContainerDesc where
  name : String
  image : String
  port : Nat
  cpuLimit : String
  memLimit : String
deriving DecidableEq, Repr

/-- Deployment (workload) descriptor, as built by `getDeployment`. -/
structure DeploymentDesc where
  name : String
  labels : List (String × String)
  selectorMatchLabels : List (String × String)
  templateLabels : List (String × String)
  container : ContainerDesc
deriving DecidableEq, Repr

/-- Embedding of `getDeployment`. -/
def getDeployment (cfg : Config) (appName teamId : String) : DeploymentDesc :=
  { name := appName,
    labels :=
      [("app", appName),
       ("chaldeploy.captaingee.ch/chal", HashString cfg.ChallengeName),
       ("chaldeploy.captaingee.ch/team-id", teamId)],
    selectorMatchLabels := getSelector appName teamId,
    templateLabels :=
      [("app", appName),
       ("chaldeploy.captaingee.ch/chal", HashString cfg.ChallengeName),
       ("chaldeploy.captaingee.ch/team-id", teamId)],
    container :=
      { name := (cfg.ChallengeImage.splitOn ":").headD "",
        image := cfg.ChallengeImage,
        port := cfg.ChallengePort,
        cpuLimit := "500m",
        memLimit := "256Mi" } }

/-- Go error classes that `os.IsExist` / `os.IsNotExist` distinguish. -/
inductive GoErr where
  | notExist
  | exist
deriving DecidableEq, Repr

/-- A filesystem view: which paths exist, and the home directory
(`""` when the home directory cannot be resolved). -/
structure FS where
  pathExists : String → Bool
  homeDir : String

/-- Embedding of `os.Stat`: a nil error iff the path exists, otherwise a
not-exist error. -/
def osStat (fs : FS) (p : String) : Option GoErr :=
  if fs.pathExists p then none else some .notExist

/-- Embedding of `os.IsExist`: true only for an already-exists error.
In particular it is `false` on a nil error. -/
def osIsExist : Option GoErr → Bool
  | some .exist => true
  | _ => false

/-- Embedding of `os.IsNotExist`. -/
def osIsNotExist : Option GoErr → Bool
  | some .notExist => true
  | _ => false

/-- Which credential source a successfully loaded cluster config came from.
The contents of the `rest.Config` are opaque to the claims. -/
inductive K8sConfig where
  | fromPath (p : String)
  | inCluster
  | fromHome (p : String)
deriving DecidableEq, Repr

/-- Embedding of `getConfigForCluster`. The external builders
(`clientcmd.BuildConfigFromFlags`, `rest.InClusterConfig`) are modelled as
succeeding; the claims are about which source is selected. -/
def getConfigForCluster (fs : FS) (cfg : Config) : Except String K8sConfig :=
  if cfg.K8sConfigPath ≠ "" then
    if osIsExist (osStat fs cfg.K8sConfigPath) then
      .ok (.fromPath cfg.K8sConfigPath)
    else
      .error "specified filepath for k8s config doesn't exist"
  else
    if osIsExist (osStat fs "/var/run/secrets/kubernetes.io/serviceaccount") then
      .ok .inCluster
    else
      if fs.homeDir ≠ "" then
        if osIsNotExist (osStat fs (fs.homeDir ++ "/.kube/config")) then
          .error "couldn't find a k8s config to load"
        else
          .ok (.fromHome (fs.homeDir ++ "/.kube/config"))
      else
        .error "couldn't resolve home directory, can't load local k8s config"

/-- The state transitions the specification declares legal. -/
def specAllowedTransition : InstanceState → InstanceState → Bool
  | .Destroyed, .Running => true
  | .Running, .Destroying => true
  | .Destroying, .Destroyed => true
  | _, _ => false

/-- The state transitions the code actually performs: the spec's legal
transitions plus `Destroyed → Destroying` (destroy called on a record that
is already destroyed). -/
def codeAllowedTransition : InstanceState → InstanceState → Bool
  | .Destroyed, .Running => true
  | .Running, .Destroying => true
  | .Destroying, .Destroyed => true
  | .Destroyed, .Destroying => true
  | _, _ => false

/-- All `setState` events of a trace satisfy the given transition predicate. -/
def stateWritesOk (allowed : InstanceState → InstanceState → Bool)
    (tr : List Event) : Bool :=
  tr.all fun e =>
    match e with
    | .setState a b => allowed a b
    | _ => true

/-- Number of namespace-delete cluster calls in a trace. -/
def countDeletes (tr : List Event) : Nat :=
  (tr.filter fun e =>
    match e with
    | .deleteNs _ => true
    | _ => false).length

/-- A `storeInst` is observed by a subsequent lookup of the same key. -/
theorem lookupInst_storeInst_self (l : List (String × DeploymentInstance))
    (key : String) (v : DeploymentInstance) :
    lookupInst (storeInst l key v) key = some v := by
  induction l with
  | nil => simp [storeInst, lookupInst]
  | cons hd tl ih =>
    by_cases h : hd.1 = key
    · simp [storeInst, lookupInst, h]
    · simp [storeInst, lookupInst, h, ih]

/-- Shared concrete configuration for witnesses. -/
def cfgW : Config :=
  { ChallengeName := "pwn1", ChallengeImage := "img:v1",
    ChallengePort := 31337, K8sConfigPath := "" }

/-- The empty world: no registry records, no cluster namespaces. -/
def wEmpty : World := { instances := [], namespaces := [] }

/-- C1: if the registry record for a team is in state `Running` or
`Destroying`, `CreateDeployment` returns the record's stored connection
string with no error, performs no cluster call (its event trace is just the
lock round-trip, with no `createNs`/`createDep`/`setState` event), and
leaves the world — hence the record's state and endpoint — unchanged. -/
theorem create_noop_when_provisioned (cfg : Config) (o : CreateOracle) (w : World)
    (teamId : String) (di : DeploymentInstance)
    (hlook : lookupInst w.instances teamId = some di)
    (hst : di.State = .Running ∨ di.State = .Destroying) :
    CreateDeployment cfg o w teamId = (some di.Cxn, w, [.lock, .unlock]) := by
  have hne : ¬ di.State = InstanceState.Destroyed := by
    rcases hst with h | h <;> simp [h]
  simp [CreateDeployment, loadOrStore, hlook, hne]

/-- C1 witness: a concrete `Running` record is returned unchanged. -/
theorem create_noop_when_provisioned_witness :
    CreateDeployment cfgW { nsOk := true, depOk := true }
        { instances := [("t1", { AppName := "n", Namespace := "n",
                                 State := .Running, Cxn := "9.9.9.9:1" })],
          namespaces := ["n"] } "t1" =
      (some "9.9.9.9:1",
       { instances := [("t1", { AppName := "n", Namespace := "n",
                                State := .Running, Cxn := "9.9.9.9:1" })],
         namespaces := ["n"] },
       [.lock, .unlock]) :=
  create_noop_when_provisioned cfgW { nsOk := true, depOk := true }
    { instances := [("t1", { AppName := "n", Namespace := "n",
                             State := .Running, Cxn := "9.9.9.9:1" })],
      namespaces := ["n"] } "t1"
    { AppName := "n", Namespace := "n", State := .Running, Cxn := "9.9.9.9:1" }
    (by decide) (Or.inl rfl)

/-- C3: evaluating `DestroyDeployment` at a record whose namespace is absent
from the cluster: the call succeeds (nil error) but the record is left in
state `Destroying`, not `Destroyed` — the early `return nil` in the
namespace-existence check skips the `Destroyed` transition, leaving the
record permanently unredeployable. -/
theorem destroy_absent_namespace_leaves_destroying :
    (DestroyDeployment { getOk := true, deleteOk := true }
        { instances := [("t1", { AppName := "n", Namespace := "n",
                                 State := .Running, Cxn := "c" })],
          namespaces := [] } "t1").1 = true ∧
    Option.map DeploymentInstance.State
      (lookupInst (DestroyDeployment { getOk := true, deleteOk := true }
          { instances := [("t1", { AppName := "n", Namespace := "n",
                                   State := .Running, Cxn := "c" })],
            namespaces := [] } "t1").2.1.instances "t1") =
      some .Destroying := by decide

/-- C7: destroying a team that has no registry record returns an error,
issues no cluster call (empty event trace) and leaves the world unchanged. -/
theorem destroy_unknown_team_fails (o : DestroyOracle) (w : World) (teamId : String)
    (h : lookupInst w.instances teamId = none) :
    DestroyDeployment o w teamId = (false, w, []) := by
  simp [DestroyDeployment, h]

/-- C7 witness: destroy on the empty registry fails without any event. -/
theorem destroy_unknown_team_fails_witness :
    DestroyDeployment { getOk := true, deleteOk := true } wEmpty "t1" =
      (false, wEmpty, []) :=
  destroy_unknown_team_fails { getOk := true, deleteOk := true } wEmpty "t1" (by decide)

/-- C9 counterexample: the deployment descriptor built by `getDeployment`
carries no managed-by label at all — neither on the deployment object nor
on its pod template; only `getNamespace` attaches
`chaldeploy.captaingee.ch/managed-by`. -/
theorem deployment_lacks_managed_by_label :
    ((getDeployment cfgW "app1" "T-100").labels.all
        (fun p => decide (p.1 ≠ "chaldeploy.captaingee.ch/managed-by"))) = true ∧
    ((getDeployment cfgW "app1" "T-100").templateLabels.all
        (fun p => decide (p.1 ≠ "chaldeploy.captaingee.ch/managed-by"))) = true := by
  decide

/-- C9 amended: the deployment descriptor's labels carry the challenge
identity and the team identity (plus the app label); the managed-by marker
is carried by the namespace descriptor instead. -/
theorem deployment_and_namespace_labels (cfg : Config) (appName teamId nsName : String) :
    ("chaldeploy.captaingee.ch/chal", HashString cfg.ChallengeName) ∈
        (getDeployment cfg appName teamId).labels ∧
    ("chaldeploy.captaingee.ch/team-id", teamId) ∈
        (getDeployment cfg appName teamId).labels ∧
    ("chaldeploy.captaingee.ch/managed-by", "yes") ∈
        (getNamespace cfg nsName teamId).labels := by
  simp [getDeployment, getNamespace]

/-- C2 counterexample: a reachable two-call sequence from the empty world —
a `CreateDeployment` whose cluster call fails (leaving the stored record in
state `Destroyed`) followed by a `DestroyDeployment` — performs a state
write that is not among the spec's legal transitions (it writes
`Destroyed → Destroying`). -/
theorem spec_transition_violated :
    stateWritesOk specAllowedTransition
      (DestroyDeployment { getOk := true, deleteOk := true }
        (CreateDeployment cfgW { nsOk := false, depOk := false } wEmpty "T-100").2.1
        "T-100").2.2 = false := by
  decide

/-- C2 amended: over every world and every call, each write to a record's
`State` field is one of `Destroyed → Running`, `Running → Destroying`,
`Destroying → Destroyed`, or `Destroyed → Destroying` (the last arises when
destroy is invoked on a record already in state `Destroyed`); a destroy of
a record already in `Destroying` performs no state write at all. -/
theorem state_writes_follow_code_transitions (cfg : Config) (oc : CreateOracle)
    (od : DestroyOracle) (w w' : World) (t t' : String) :
    stateWritesOk codeAllowedTransition (CreateDeployment cfg oc w t).2.2 = true ∧
    stateWritesOk codeAllowedTransition (DestroyDeployment od w' t').2.2 = true := by
  constructor
  · simp only [CreateDeployment]
    split_ifs <;> simp [stateWritesOk, codeAllowedTransition]
  · simp only [DestroyDeployment]
    cases h : lookupInst w'.instances t' with
    | none => simp [stateWritesOk]
    | some di =>
      by_cases hd : di.State = InstanceState.Destroying
      · simp [hd, stateWritesOk]
      · have hc : codeAllowedTransition di.State .Destroying = true := by
          cases hs : di.State <;> simp_all [codeAllowedTransition]
        have hc2 : codeAllowedTransition .Destroying .Destroyed = true := by decide
        simp only [hd, if_false]
        split_ifs <;> simp [stateWritesOk, hc, hc2]

/-- C4 counterexample: the distinct team identifiers `"ab"` and `"a-b"`,
which differ only by a dash, derive the same resource name (the derivation
strips dashes from the team identifier). -/
theorem uniqName_dash_collision :
    uniqName "pwn1" "ab" = uniqName "pwn1" "a-b" ∧ "ab" ≠ "a-b" := by
  decide

/-- C4 amended: resource name derivation is deterministic, and for a fixed
challenge identity two team identifiers derive the same name exactly when
they agree after removing dashes and lowercasing; in particular team
identifiers with distinct normalizations derive distinct names. -/
theorem uniqName_eq_iff_normalized_eq (c t1 t2 : String) :
    uniqName c t1 = uniqName c t2 ↔
      goToLower (removeDashes t1) = goToLower (removeDashes t2) := by
  unfold uniqName
  rw [String.ext_iff, String.ext_iff]
  simp only [goToLower, String.data_append, List.map_append, List.append_cancel_left_eq]

/-- C6: when the record is in state `Destroyed` and either cluster create
call fails, `CreateDeployment` reports an error (`none`) and the registry
still maps the team to the exact same record — state `Destroyed`, endpoint
untouched. -/
theorem create_failure_preserves_destroyed (cfg : Config) (o : CreateOracle)
    (w : World) (teamId : String) (di : DeploymentInstance)
    (hlook : lookupInst w.instances teamId = some di)
    (hst : di.State = .Destroyed)
    (hfail : o.nsOk = false ∨ o.depOk = false) :
    (CreateDeployment cfg o w teamId).1 = none ∧
    lookupInst (CreateDeployment cfg o w teamId).2.1.instances teamId = some di := by
  rcases hfail with hf | hf
  · simp [CreateDeployment, loadOrStore, hlook, hst, hf]
  · by_cases hn : o.nsOk <;>
      simp [CreateDeployment, loadOrStore, hlook, hst, hf, hn]

/-- C6 witness: a concrete failed namespace-create leaves the destroyed
record untouched and returns an error. -/
theorem create_failure_preserves_destroyed_witness :
    (CreateDeployment cfgW { nsOk := false, depOk := true }
        { instances := [("t1", { AppName := "n", Namespace := "n",
                                 State := .Destroyed, Cxn := "old" })],
          namespaces := [] } "t1").1 = none ∧
    lookupInst (CreateDeployment cfgW { nsOk := false, depOk := true }
        { instances := [("t1", { AppName := "n", Namespace := "n",
                                 State := .Destroyed, Cxn := "old" })],
          namespaces := [] } "t1").2.1.instances "t1" =
      some { AppName := "n", Namespace := "n", State := .Destroyed, Cxn := "old" } :=
  create_failure_preserves_destroyed cfgW { nsOk := false, depOk := true }
    { instances := [("t1", { AppName := "n", Namespace := "n",
                             State := .Destroyed, Cxn := "old" })],
      namespaces := [] } "t1"
    { AppName := "n", Namespace := "n", State := .Destroyed, Cxn := "old" }
    (by decide) rfl (Or.inl rfl)

/-- C8: evaluating `getConfigForCluster` with an explicit config path set
and a filesystem on which that path exists: the function returns the
"specified filepath for k8s config doesn't exist" error instead of the
config built from the path, because `os.IsExist` applied to the nil error
of a successful `os.Stat` is `false`. -/
theorem explicit_config_path_always_rejected :
    getConfigForCluster { pathExists := fun _ => true, homeDir := "/home/u" }
        { ChallengeName := "pwn1", ChallengeImage := "img:v1",
          ChallengePort := 31337, K8sConfigPath := "/cfg" } =
      .error "specified filepath for k8s config doesn't exist" := by
  rfl

/-- C10: whenever the team has no record yet or its record is in state
`Destroyed`, a fully successful `CreateDeployment` returns the fixed
connection string `"1.2.3.4:9999"` and stores it in the record — for every
team identifier and every challenge configuration alike. -/
theorem create_returns_constant_endpoint (cfg : Config) (o : CreateOracle)
    (w : World) (teamId : String)
    (hok1 : o.nsOk = true) (hok2 : o.depOk = true)
    (hst : ∀ di, lookupInst w.instances teamId = some di → di.State = .Destroyed) :
    (CreateDeployment cfg o w teamId).1 = some "1.2.3.4:9999" ∧
    Option.map DeploymentInstance.Cxn
      (lookupInst (CreateDeployment cfg o w teamId).2.1.instances teamId) =
      some "1.2.3.4:9999" := by
  cases h : lookupInst w.instances teamId with
  | none =>
    simp [CreateDeployment, loadOrStore, h, hok1, hok2, lookupInst_storeInst_self]
  | some di =>
    have hd := hst di h
    simp [CreateDeployment, loadOrStore, h, hd, hok1, hok2, lookupInst_storeInst_self]

/-- C10 witness: a concrete create from the empty world returns and stores
`"1.2.3.4:9999"`. -/
theorem create_returns_constant_endpoint_witness :
    (CreateDeployment cfgW { nsOk := true, depOk := true } wEmpty "T-100").1 =
      some "1.2.3.4:9999" ∧
    Option.map DeploymentInstance.Cxn
      (lookupInst (CreateDeployment cfgW { nsOk := true, depOk := true }
          wEmpty "T-100").2.1.instances "T-100") = some "1.2.3.4:9999" :=
  create_returns_constant_endpoint cfgW { nsOk := true, depOk := true } wEmpty "T-100"
    rfl rfl (by intro di hdi; simp [wEmpty, lookupInst] at hdi)

/-- Concrete world with one running instance, used by the C5 witness. -/
def wC5 : World :=
  { instances := [("t1", { AppName := "n", Namespace := "n",
                           State := .Running, Cxn := "c" })],
    namespaces := ["n"] }

/-- C5: (i) a destroy that observes state `Destroying` returns success with
an empty event trace — it acquires no lock and issues no cluster call, so
the check is a quick read performed before any lock acquisition; (ii) for a
record whose app name and namespace agree (as for every record the manager
builds), two consecutive destroy calls issue at most one namespace-delete
cluster call, the second call issuing none and returning success. -/
theorem destroy_twice_at_most_one_delete (o1 o2 : DestroyOracle) (w : World)
    (teamId : String) (di : DeploymentInstance)
    (hlook : lookupInst w.instances teamId = some di)
    (hnm : di.AppName = di.Namespace) :
    (di.State = .Destroying → DestroyDeployment o1 w teamId = (true, w, [])) ∧
    countDeletes (DestroyDeployment o1 w teamId).2.2 ≤ 1 ∧
    (DestroyDeployment o2 (DestroyDeployment o1 w teamId).2.1 teamId).1 = true ∧
    countDeletes
      (DestroyDeployment o2 (DestroyDeployment o1 w teamId).2.1 teamId).2.2 = 0 := by
  by_cases hd : di.State = InstanceState.Destroying
  · have h1 : DestroyDeployment o1 w teamId = (true, w, []) := by
      simp [DestroyDeployment, hlook, hd]
    refine ⟨fun _ => h1, ?_, ?_, ?_⟩ <;> rw [h1]
    · simp [countDeletes]
    · simp [DestroyDeployment, hlook, hd]
    · simp [DestroyDeployment, hlook, hd, countDeletes]
  · refine ⟨fun hcon => absurd hcon hd, ?_⟩
    by_cases hf : o1.getOk = true ∧ di.AppName ∈ w.namespaces
    · by_cases hdel : o1.deleteOk = true
      · have h1 : DestroyDeployment o1 w teamId =
            (true,
             ⟨storeInst
                (storeInst w.instances teamId
                  ⟨di.AppName, di.Namespace, .Destroying, di.Cxn⟩)
                teamId ⟨di.AppName, di.Namespace, .Destroyed, di.Cxn⟩,
              w.namespaces.filter fun x => decide (x ≠ di.Namespace)⟩,
             [.lock, .setState di.State .Destroying, .unlock, .getNs di.AppName,
              .lock, .deleteNs di.Namespace, .setState .Destroying .Destroyed,
              .unlock]) := by
          simp [DestroyDeployment, hlook, hd, hf, hdel]
        have h2 : DestroyDeployment o2 (DestroyDeployment o1 w teamId).2.1 teamId =
            (true,
             ⟨storeInst
                (storeInst
                  (storeInst w.instances teamId
                    ⟨di.AppName, di.Namespace, .Destroying, di.Cxn⟩)
                  teamId ⟨di.AppName, di.Namespace, .Destroyed, di.Cxn⟩)
                teamId ⟨di.AppName, di.Namespace, .Destroying, di.Cxn⟩,
              w.namespaces.filter fun x => decide (x ≠ di.Namespace)⟩,
             [.lock, .setState .Destroyed .Destroying, .unlock, .getNs di.AppName]) := by
          rw [h1]
          simp [DestroyDeployment, lookupInst_storeInst_self, hnm]
        refine ⟨?_, ?_, ?_⟩
        · rw [h1]; simp [countDeletes]
        · rw [h2]
        · rw [h2]; simp [countDeletes]
      · have h1 : DestroyDeployment o1 w teamId =
            (false,
             ⟨storeInst w.instances teamId
                ⟨di.AppName, di.Namespace, .Destroying, di.Cxn⟩,
              w.namespaces⟩,
             [.lock, .setState di.State .Destroying, .unlock, .getNs di.AppName,
              .lock, .deleteNs di.Namespace, .unlock]) := by
          simp [DestroyDeployment, hlook, hd, hf, hdel]
        have h2 : DestroyDeployment o2 (DestroyDeployment o1 w teamId).2.1 teamId =
            (true, (DestroyDeployment o1 w teamId).2.1, []) := by
          rw [h1]
          simp [DestroyDeployment, lookupInst_storeInst_self]
        refine ⟨?_, ?_, ?_⟩
        · rw [h1]; simp [countDeletes]
        · rw [h2]
        · rw [h2]; simp [countDeletes]
    · have h1 : DestroyDeployment o1 w teamId =
          (true,
           ⟨storeInst w.instances teamId
              ⟨di.AppName, di.Namespace, .Destroying, di.Cxn⟩,
            w.namespaces⟩,
           [.lock, .setState di.State .Destroying, .unlock, .getNs di.AppName]) := by
        simp [DestroyDeployment, hlook, hd, hf]
      have h2 : DestroyDeployment o2 (DestroyDeployment o1 w teamId).2.1 teamId =
          (true, (DestroyDeployment o1 w teamId).2.1, []) := by
        rw [h1]
        simp [DestroyDeployment, lookupInst_storeInst_self]
      refine ⟨?_, ?_, ?_⟩
      · rw [h1]; simp [countDeletes]
      · rw [h2]
      · rw [h2]; simp [countDeletes]

/-- C5 witness: a concrete running instance, destroyed twice with all
cluster calls succeeding. -/
theorem destroy_twice_at_most_one_delete_witness :
    (({ AppName := "n", Namespace := "n", State := .Running, Cxn := "c" }
        : DeploymentInstance).State = .Destroying →
      DestroyDeployment { getOk := true, deleteOk := true } wC5 "t1" = (true, wC5, [])) ∧
    countDeletes
      (DestroyDeployment { getOk := true, deleteOk := true } wC5 "t1").2.2 ≤ 1 ∧
    (DestroyDeployment { getOk := true, deleteOk := true }
      (DestroyDeployment { getOk := true, deleteOk := true } wC5 "t1").2.1 "t1").1 = true ∧
    countDeletes
      (DestroyDeployment { getOk := true, deleteOk := true }
        (DestroyDeployment { getOk := true, deleteOk := true } wC5 "t1").2.1 "t1").2.2 = 0 :=
  destroy_twice_at_most_one_delete
    { getOk := true, deleteOk := true } { getOk := true, deleteOk := true } wC5 "t1"
    { AppName := "n", Namespace := "n", State := .Running, Cxn := "c" }
    (by decide) rfl

end Chaldeploy
